import Mathlib

/-!
Verification of the ingestion and EXIF-normalization pipeline of the
shunying image-processing tool.

The development shallowly embeds the Python sources:
  - `exif_utils/processor.py` (completeness counting over the catalog),
  - `02_exif_extractor.py` (the EXIF-completeness predicate of the UI list),
  - `01_image_processor.py` (file intake: content-hash and timestamp
    renaming, quarantine handling),
  - `exif_utils/extractor.py` (raw EXIF extraction and normalization).

Machine-level collaborators (the SQLite store, the filesystem, PIL) are
modelled by explicit data: a catalog is a list of records, a directory is
the list of filenames it contains, an opened image is a structure holding
its decoded size and raw tag set.
-/

namespace Shunying

/-! ### Catalog records

One row of the `images` table (schema in `00_init_app.py`, lines 157-183).
All EXIF columns are nullable; `status` has schema default `'success'`,
and no code path stores NULL into it, so it is modelled as a plain string.
Only the nullability of a column matters to the completeness predicate, so
textual columns are `Option String` and the integer columns `Option Int`.
-/
structure ImageRecord where
  status : String
  capture_time : Option String
  camera_model : Option String
  width : Option Int
  height : Option Int
  focal_length : Option String
  shutter_speed : Option String
  aperture : Option String
  iso : Option String
  exposure_compensation : Option String
  white_balance : Option String
  lens_model : Option String
  gps_latitude : Option String
  gps_longitude : Option String
  remark : Option String
  error_message : Option String
  deriving DecidableEq, Repr

/-- The EXIF-completeness predicate, from `02_exif_extractor.py` lines
369-381 (`is_exif_complete`): `status == 'success'` and all ten core
fields are non-NULL. -/
def is_exif_complete (r : ImageRecord) : Bool :=
  r.status == "success" &&
  r.capture_time.isSome &&
  r.camera_model.isSome &&
  r.width.isSome &&
  r.height.isSome &&
  r.focal_length.isSome &&
  r.shutter_speed.isSome &&
  r.aperture.isSome &&
  r.iso.isSome &&
  r.exposure_compensation.isSome &&
  r.white_balance.isSome

/-- The ten core EXIF fields that the completeness predicate inspects. -/
inductive CoreField where
  | captureTime | cameraModel | width | height | focalLength
  | shutterSpeed | aperture | iso | exposureCompensation | whiteBalance
  deriving DecidableEq, Repr, Fintype

/-- Whether the given core field of a record is non-NULL. -/
def coreIsSome (f : CoreField) (r : ImageRecord) : Bool :=
  match f with
  | .captureTime => r.capture_time.isSome
  | .cameraModel => r.camera_model.isSome
  | .width => r.width.isSome
  | .height => r.height.isSome
  | .focalLength => r.focal_length.isSome
  | .shutterSpeed => r.shutter_speed.isSome
  | .aperture => r.aperture.isSome
  | .iso => r.iso.isSome
  | .exposureCompensation => r.exposure_compensation.isSome
  | .whiteBalance => r.white_balance.isSome

/-- Set the given core field of a record to NULL. -/
def nullifyCore (f : CoreField) (r : ImageRecord) : ImageRecord :=
  match f with
  | .captureTime => { r with capture_time := none }
  | .cameraModel => { r with camera_model := none }
  | .width => { r with width := none }
  | .height => { r with height := none }
  | .focalLength => { r with focal_length := none }
  | .shutterSpeed => { r with shutter_speed := none }
  | .aperture => { r with aperture := none }
  | .iso => { r with iso := none }
  | .exposureCompensation => { r with exposure_compensation := none }
  | .whiteBalance => { r with white_balance := none }

/-! ### Completeness counting (`exif_utils/processor.py`)

Both counting queries run fresh `SELECT COUNT(*)` statements over the
stored columns; the catalog is modelled as the list of its rows and each
count as the length of the matching filter.
-/

/-- The `WHERE` conjunction of `get_processed_count`
(`exif_utils/processor.py` lines 171-185), without the status clause:
all ten core columns `IS NOT NULL`. -/
def all_core_not_null (r : ImageRecord) : Bool :=
  r.capture_time.isSome &&
  r.camera_model.isSome &&
  r.width.isSome &&
  r.height.isSome &&
  r.focal_length.isSome &&
  r.shutter_speed.isSome &&
  r.aperture.isSome &&
  r.iso.isSome &&
  r.exposure_compensation.isSome &&
  r.white_balance.isSome

/-- The `WHERE` disjunction of `get_unprocessed_count`
(`exif_utils/processor.py` lines 214-228), without the status clause:
at least one of the ten core columns `IS NULL`. -/
def any_core_null (r : ImageRecord) : Bool :=
  r.capture_time.isNone ||
  r.camera_model.isNone ||
  r.width.isNone ||
  r.height.isNone ||
  r.focal_length.isNone ||
  r.shutter_speed.isNone ||
  r.aperture.isNone ||
  r.iso.isNone ||
  r.exposure_compensation.isNone ||
  r.white_balance.isNone

/-- `get_processed_count` (`exif_utils/processor.py` lines 155-196):
count of rows with `status = 'success'` and all ten core columns
non-NULL, recomputed from the stored rows on every call. -/
def get_processed_count (db : List ImageRecord) : Nat :=
  (db.filter (fun r => r.status == "success" && all_core_not_null r)).length

/-- `get_unprocessed_count` (`exif_utils/processor.py` lines 198-239):
count of rows with `status = 'success'` and at least one core column
NULL, recomputed from the stored rows on every call. -/
def get_unprocessed_count (db : List ImageRecord) : Nat :=
  (db.filter (fun r => r.status == "success" && any_core_null r)).length

/-- `SELECT COUNT(*) FROM images WHERE status = 'success'`
(`exif_utils/processor.py` lines 167 and 210). -/
def count_success (db : List ImageRecord) : Nat :=
  (db.filter (fun r => r.status == "success")).length

theorem bool_any_not_eq_not_all (a b c d e f g h i j : Bool) :
    (!a || !b || !c || !d || !e || !f || !g || !h || !i || !j) =
      !(a && b && c && d && e && f && g && h && i && j) := by
  cases a <;> cases b <;> cases c <;> cases d <;> cases e <;> cases f <;>
    cases g <;> cases h <;> cases i <;> cases j <;> rfl

theorem isNone_eq_not_isSome {α : Type} (o : Option α) : o.isNone = !o.isSome := by
  cases o <;> rfl

theorem any_core_null_eq_not_all (r : ImageRecord) :
    any_core_null r = !all_core_not_null r := by
  unfold any_core_null all_core_not_null
  rw [isNone_eq_not_isSome, isNone_eq_not_isSome, isNone_eq_not_isSome,
    isNone_eq_not_isSome, isNone_eq_not_isSome, isNone_eq_not_isSome,
    isNone_eq_not_isSome, isNone_eq_not_isSome, isNone_eq_not_isSome,
    isNone_eq_not_isSome]
  exact bool_any_not_eq_not_all ..

/-- C1: a record is EXIF-complete iff its status is `success` and all ten
core fields are non-null; nullifying any single core field of a complete
record flips the predicate to false; and the nullability of every other
field (`lens_model`, `gps_latitude`, `gps_longitude`, `remark`,
`error_message`) has no effect on the predicate. -/
theorem c1_exif_complete_characterization (r : ImageRecord) :
    (is_exif_complete r = true ↔
      r.status = "success" ∧ ∀ f : CoreField, coreIsSome f r = true) ∧
    (r.status = "success" → is_exif_complete r = true →
      ∀ f : CoreField, is_exif_complete (nullifyCore f r) = false) ∧
    (∀ v₁ v₂ v₃ v₄ v₅, is_exif_complete
        { r with lens_model := v₁, gps_latitude := v₂, gps_longitude := v₃,
                 remark := v₄, error_message := v₅ } = is_exif_complete r) := by
  refine ⟨?_, ?_, ?_⟩
  · constructor
    · intro hc
      simp only [is_exif_complete, Bool.and_eq_true, beq_iff_eq] at hc
      refine ⟨hc.1.1.1.1.1.1.1.1.1.1, ?_⟩
      intro f
      cases f <;> simp only [coreIsSome] <;> tauto
    · rintro ⟨hs, hf⟩
      simp only [is_exif_complete, Bool.and_eq_true, beq_iff_eq]
      exact ⟨⟨⟨⟨⟨⟨⟨⟨⟨⟨hs, hf .captureTime⟩, hf .cameraModel⟩, hf .width⟩,
        hf .height⟩, hf .focalLength⟩, hf .shutterSpeed⟩, hf .aperture⟩,
        hf .iso⟩, hf .exposureCompensation⟩, hf .whiteBalance⟩
  · intro _ _ f
    cases f <;> simp [is_exif_complete, nullifyCore]
  · intro v₁ v₂ v₃ v₄ v₅
    rfl

/-- A fully populated catalog record used to instantiate the C1 theorem. -/
def sampleCompleteRecord : ImageRecord :=
  { status := "success"
    capture_time := some "2023-06-01 12:30:00"
    camera_model := some "NIKON Z 8"
    width := some 8256
    height := some 5504
    focal_length := some "50.0mm"
    shutter_speed := some "1/250s"
    aperture := some "f/2.8"
    iso := some "100"
    exposure_compensation := some "+0.3EV"
    white_balance := some "自动"
    lens_model := none
    gps_latitude := none
    gps_longitude := none
    remark := none
    error_message := none }

/-- Witness for C1 at a concrete complete record: nullifying `iso` flips
completeness from true to false. -/
theorem c1_exif_complete_characterization_witness :
    is_exif_complete sampleCompleteRecord = true ∧
    is_exif_complete (nullifyCore CoreField.iso sampleCompleteRecord) = false := by
  refine ⟨rfl, ?_⟩
  exact (c1_exif_complete_characterization sampleCompleteRecord).2.1 rfl rfl
    CoreField.iso

/-- C2: for every catalog state,
`get_unprocessed_count + get_processed_count = count(status = success)`.
The two queries restrict complementary predicates over the ten stored core
columns to `status = 'success'` rows, and both are defined directly as
fresh filters over the stored rows (no stored counter exists in the
model, mirroring the two `SELECT COUNT(*)` statements). -/
theorem c2_count_partition (db : List ImageRecord) :
    get_unprocessed_count db + get_processed_count db = count_success db := by
  induction db with
  | nil => rfl
  | cons r rest ih =>
    have hany := any_core_null_eq_not_all r
    unfold get_unprocessed_count get_processed_count count_success at *
    simp only [List.filter_cons]
    by_cases hs : (r.status == "success") = true
    · by_cases ha : all_core_not_null r = true
      · simp only [hs, ha, hany, Bool.true_and, Bool.not_true, Bool.and_false,
          Bool.and_true, Bool.false_eq_true, if_false, if_true,
          List.length_cons]
        omega
      · have ha' : all_core_not_null r = false := by
          simpa using ha
        simp only [hs, ha', hany, Bool.true_and, Bool.not_false,
          Bool.and_false, Bool.and_true, Bool.false_eq_true, if_false,
          if_true, List.length_cons]
        omega
    · have hs' : (r.status == "success") = false := by
        simpa using hs
      simp only [hs', Bool.false_and, Bool.false_eq_true, if_false]
      exact ih

/-! ### MD5 (`hashlib.md5(...).hexdigest()` as used by `01_image_processor.py`)

The content-hash renaming policy reads the raw bytes of the source file
and uses the lowercase hex MD5 digest as the base filename
(`01_image_processor.py` lines 112-124).  MD5 is implemented here over
`List Nat` byte sequences (each byte `< 256`), with 32-bit words as `Nat`
reduced mod `2^32`.
-/

/-- `2^32`, the word modulus of MD5. -/
def M32 : Nat := 4294967296

/-- The 64 MD5 round constants, `floor(2^32 * |sin(i + 1)|)`. -/
def mdK : List Nat :=
  [0xd76aa478, 0xe8c7b756, 0x242070db, 0xc1bdceee,
   0xf57c0faf, 0x4787c62a, 0xa8304613, 0xfd469501,
   0x698098d8, 0x8b44f7af, 0xffff5bb1, 0x895cd7be,
   0x6b901122, 0xfd987193, 0xa679438e, 0x49b40821,
   0xf61e2562, 0xc040b340, 0x265e5a51, 0xe9b6c7aa,
   0xd62f105d, 0x02441453, 0xd8a1e681, 0xe7d3fbc8,
   0x21e1cde6, 0xc33707d6, 0xf4d50d87, 0x455a14ed,
   0xa9e3e905, 0xfcefa3f8, 0x676f02d9, 0x8d2a4c8a,
   0xfffa3942, 0x8771f681, 0x6d9d6122, 0xfde5380c,
   0xa4beea44, 0x4bdecfa9, 0xf6bb4b60, 0xbebfbc70,
   0x289b7ec6, 0xeaa127fa, 0xd4ef3085, 0x04881d05,
   0xd9d4d039, 0xe6db99e5, 0x1fa27cf8, 0xc4ac5665,
   0xf4292244, 0x432aff97, 0xab9423a7, 0xfc93a039,
   0x655b59c3, 0x8f0ccc92, 0xffeff47d, 0x85845dd1,
   0x6fa87e4f, 0xfe2ce6e0, 0xa3014314, 0x4e0811a1,
   0xf7537e82, 0xbd3af235, 0x2ad7d2bb, 0xeb86d391]

/-- The 64 MD5 per-round left-rotation amounts. -/
def mdS : List Nat :=
  [7, 12, 17, 22, 7, 12, 17, 22, 7, 12, 17, 22, 7, 12, 17, 22,
   5, 9, 14, 20, 5, 9, 14, 20, 5, 9, 14, 20, 5, 9, 14, 20,
   4, 11, 16, 23, 4, 11, 16, 23, 4, 11, 16, 23, 4, 11, 16, 23,
   6, 10, 15, 21, 6, 10, 15, 21, 6, 10, 15, 21, 6, 10, 15, 21]

/-- Bitwise complement within 32 bits. -/
def not32 (x : Nat) : Nat := x ^^^ 0xffffffff

/-- 32-bit left rotation. -/
def rotl32 (x n : Nat) : Nat := ((x <<< n) ||| (x >>> (32 - n))) % M32

/-- Little-endian 32-bit word `g` of a 64-byte block. -/
def mdWord (block : List Nat) (g : Nat) : Nat :=
  block.getD (4 * g) 0 + 256 * block.getD (4 * g + 1) 0 +
    65536 * block.getD (4 * g + 2) 0 + 16777216 * block.getD (4 * g + 3) 0

/-- The four 32-bit MD5 state words. -/
structure MdState where
  a : Nat
  b : Nat
  c : Nat
  d : Nat
  deriving DecidableEq, Repr

/-- One of the 64 MD5 rounds. -/
def mdStep (block : List Nat) (st : MdState) (i : Nat) : MdState :=
  let fg : Nat × Nat :=
    if i < 16 then (((st.b &&& st.c) ||| (not32 st.b &&& st.d)) % M32, i)
    else if i < 32 then
      (((st.d &&& st.b) ||| (not32 st.d &&& st.c)) % M32, (5 * i + 1) % 16)
    else if i < 48 then ((st.b ^^^ st.c ^^^ st.d) % M32, (3 * i + 5) % 16)
    else ((st.c ^^^ (st.b ||| not32 st.d)) % M32, (7 * i) % 16)
  let f := (fg.1 + st.a + mdK.getD i 0 + mdWord block fg.2) % M32
  ⟨st.d, (st.b + rotl32 f (mdS.getD i 0)) % M32, st.b, st.c⟩

/-- The MD5 compression function on one 64-byte block. -/
def mdCompress (st : MdState) (block : List Nat) : MdState :=
  let r := (List.range 64).foldl (mdStep block) st
  ⟨(st.a + r.a) % M32, (st.b + r.b) % M32, (st.c + r.c) % M32,
   (st.d + r.d) % M32⟩

/-- MD5 padding: `0x80`, zeros to 56 mod 64, then the 64-bit
little-endian bit length. -/
def mdPad (msg : List Nat) : List Nat :=
  let len := msg.length
  let zeros := (120 - (len + 1) % 64) % 64
  let bitLen := (len * 8) % 18446744073709551616
  msg ++ 0x80 :: List.replicate zeros 0 ++
    (List.range 8).map (fun j => (bitLen >>> (8 * j)) % 256)

/-- Consume a padded message 64 bytes at a time (fuel counts blocks). -/
def mdProcess : Nat → List Nat → MdState → MdState
  | 0, _, st => st
  | _ + 1, [], st => st
  | fuel + 1, b :: bs, st =>
      mdProcess fuel ((b :: bs).drop 64) (mdCompress st ((b :: bs).take 64))

/-- Lowercase hex digit. -/
def hexChar (n : Nat) : Char :=
  if n = 0 then '0' else if n = 1 then '1' else if n = 2 then '2'
  else if n = 3 then '3' else if n = 4 then '4' else if n = 5 then '5'
  else if n = 6 then '6' else if n = 7 then '7' else if n = 8 then '8'
  else if n = 9 then '9' else if n = 10 then 'a' else if n = 11 then 'b'
  else if n = 12 then 'c' else if n = 13 then 'd' else if n = 14 then 'e'
  else 'f'

/-- Two lowercase hex digits of a byte. -/
def byteHex (b : Nat) : List Char := [hexChar (b / 16), hexChar (b % 16)]

/-- The eight hex digits of a 32-bit word, bytes in little-endian order. -/
def wordHexLE (w : Nat) : List Char :=
  byteHex (w % 256) ++ byteHex (w / 256 % 256) ++ byteHex (w / 65536 % 256) ++
    byteHex (w / 16777216 % 256)

/-- `hashlib.md5(data).hexdigest()`: the 32-character lowercase hex MD5
digest of a byte sequence. -/
def md5Hex (msg : List Nat) : String :=
  let padded := mdPad msg
  let st := mdProcess (padded.length / 64)
    padded ⟨0x67452301, 0xefcdab89, 0x98badcfe, 0x10325476⟩
  String.mk (wordHexLE st.a ++ wordHexLE st.b ++ wordHexLE st.c ++ wordHexLE st.d)

/-! ### Content-hash renaming (`01_image_processor.py` lines 112-128)

Under `rename_option == 2` the stage computes
`new_filename = md5(file bytes).hexdigest() + file_ext` and then, when the
prefix option is non-empty, prepends it.  `keep_original` is consulted
only afterwards, when choosing where to materialize the file.
-/

/-- The intake options relevant to filename computation:
`keep_original` and `prefix_option` of `ImageProcessor.__init__`. -/
structure IntakeOptions where
  keep_original : Bool
  prefix_option : String
  deriving DecidableEq, Repr

/-- Destination filename of one file under the content-hash policy
(`01_image_processor.py` lines 112-128): hex MD5 digest of the raw bytes,
the original extension appended, the optional prefix prepended. -/
def hash_policy_filename (opts : IntakeOptions) (fileBytes : List Nat)
    (fileExt : String) : String :=
  let nf := md5Hex fileBytes ++ fileExt
  if opts.prefix_option ≠ "" then opts.prefix_option ++ nf else nf

set_option maxRecDepth 100000 in
/-- Counterexample to C3 as stated: two byte-identical inputs (both with
raw content `[]`) processed under the content-hash policy with the same
prefix option receive different destination filenames when their original
extensions differ, because the original extension is part of the computed
name. -/
theorem c3_counterexample_extension_differs :
    hash_policy_filename ⟨true, "O"⟩ [] ".jpg" ≠
      hash_policy_filename ⟨true, "O"⟩ [] ".png" := by
  decide

/-- C3 (amended): for every two inputs with identical raw bytes and the
same original extension, processed under the content-hash policy with the
same prefix option, the computed destination filename is the same,
regardless of either value of `keep_original`. -/
theorem c3_hash_filename_deterministic (k₁ k₂ : Bool) (p : String)
    (b₁ b₂ : List Nat) (e₁ e₂ : String) (hb : b₁ = b₂) (he : e₁ = e₂) :
    hash_policy_filename ⟨k₁, p⟩ b₁ e₁ = hash_policy_filename ⟨k₂, p⟩ b₂ e₂ := by
  subst hb
  subst he
  rfl

/-- Witness for C3 (amended) at concrete inputs: empty file content,
extension `.jpg`, prefix `O`, with the two opposite `keep_original`
settings. -/
theorem c3_hash_filename_deterministic_witness :
    hash_policy_filename ⟨true, "O"⟩ [] ".jpg" =
      hash_policy_filename ⟨false, "O"⟩ [] ".jpg" :=
  c3_hash_filename_deterministic true false "O" [] [] ".jpg" ".jpg" rfl rfl

/-! ### Timestamp renaming (`01_image_processor.py` lines 102-111, 126-128)

Under `rename_option == 1` the stage derives a millisecond timestamp and,
while a file of the candidate name exists in the destination directory,
appends `_1`, `_2`, ... until the name is free.  The prefix tag is
prepended only afterwards (line 126-128), i.e. the collision check runs
on the un-prefixed candidate.  The destination directory is modelled as
the list of filenames it currently holds; materializing a file adds its
name to the directory seen by the next file of the batch.

The decimal rendering of Python f-strings is `Nat.repr`; the lemmas below
establish that it is injective, which is what makes the candidate names
`t`, `t_1`, `t_2`, ... pairwise distinct and the retry loop reach a free
name after at most `|directory|` collisions.
-/


theorem toDigitsCore_eq_digits (fuel : Nat) :
    ∀ (n : Nat) (acc : List Char), n < fuel → 0 < n →
      Nat.toDigitsCore 10 fuel n acc =
        ((Nat.digits 10 n).map Nat.digitChar).reverse ++ acc := by
  induction fuel with
  | zero => intro n acc h _; omega
  | succ fuel ih =>
    intro n acc h hn
    rw [Nat.toDigitsCore]
    by_cases hz : n / 10 = 0
    · have hlt : n < 10 := by omega
      simp only [hz, if_true]
      rw [Nat.digits_def' (by norm_num) hn, hz, Nat.digits_zero,
        Nat.mod_eq_of_lt hlt]
      simp
    · simp only [hz, if_false]
      rw [ih (n / 10) _ (by omega) (by omega)]
      rw [Nat.digits_def' (by norm_num) hn]
      simp [List.append_assoc]

theorem repr_zero_eq : Nat.repr 0 = "0" := rfl

theorem repr_chars_of_pos (n : Nat) (hn : 0 < n) :
    (Nat.repr n).data = ((Nat.digits 10 n).map Nat.digitChar).reverse := by
  show (Nat.toDigits 10 n).asString.data = _
  rw [Nat.toDigits, toDigitsCore_eq_digits (n + 1) n [] (by omega) hn]
  simp [List.asString]

theorem digitChar_inj_fin :
    ∀ a b : Fin 10, Nat.digitChar a.val = Nat.digitChar b.val → a = b := by
  decide

theorem map_digitChar_inj (l₁ : List Nat) :
    ∀ l₂ : List Nat, (∀ a ∈ l₁, a < 10) → (∀ a ∈ l₂, a < 10) →
      l₁.map Nat.digitChar = l₂.map Nat.digitChar → l₁ = l₂ := by
  induction l₁ with
  | nil =>
    intro l₂ _ _ h
    cases l₂ with
    | nil => rfl
    | cons b t₂ => simp at h
  | cons a t ih =>
    intro l₂ h₁ h₂ h
    cases l₂ with
    | nil => simp at h
    | cons b t₂ =>
      simp only [List.map_cons, List.cons.injEq] at h
      have hab : a = b := by
        have hfin := digitChar_inj_fin ⟨a, h₁ a (by simp)⟩ ⟨b, h₂ b (by simp)⟩ h.1
        exact congrArg Fin.val hfin
      subst hab
      rw [ih t₂ (fun x hx => h₁ x (by simp [hx]))
        (fun x hx => h₂ x (by simp [hx])) h.2]

theorem natRepr_injective : Function.Injective Nat.repr := by
  intro m n h
  rcases Nat.eq_zero_or_pos m with hm | hm <;>
    rcases Nat.eq_zero_or_pos n with hn | hn
  · omega
  · exfalso
    subst hm
    have hd := congrArg String.data h
    rw [repr_zero_eq, repr_chars_of_pos n hn] at hd
    have : ([0].map Nat.digitChar).reverse = ((Nat.digits 10 n).map Nat.digitChar).reverse := by
      simpa using hd
    rw [List.reverse_inj] at this
    have hdig : ([0] : List Nat) = Nat.digits 10 n :=
      map_digitChar_inj [0] _ (by simp) (fun d hd => Nat.digits_lt_base (by norm_num) hd) this
    have := Nat.ofDigits_digits 10 n
    rw [← hdig] at this
    simp [Nat.ofDigits] at this
    omega
  · exfalso
    subst hn
    have hd := congrArg String.data h
    rw [repr_zero_eq, repr_chars_of_pos m hm] at hd
    have : ((Nat.digits 10 m).map Nat.digitChar).reverse = ([0].map Nat.digitChar).reverse := by
      simpa using hd
    rw [List.reverse_inj] at this
    have hdig : Nat.digits 10 m = ([0] : List Nat) :=
      map_digitChar_inj _ [0] (fun d hd => Nat.digits_lt_base (by norm_num) hd) (by simp) this
    have := Nat.ofDigits_digits 10 m
    rw [hdig] at this
    simp [Nat.ofDigits] at this
    omega
  · have hd := congrArg String.data h
    rw [repr_chars_of_pos m hm, repr_chars_of_pos n hn, List.reverse_inj] at hd
    have hdig := map_digitChar_inj _ _
      (fun d hdm => Nat.digits_lt_base (by norm_num) hdm)
      (fun d hdn => Nat.digits_lt_base (by norm_num) hdn) hd
    exact Nat.digits_inj_iff.mp hdig

theorem repr_length_pos (n : Nat) : 0 < (Nat.repr n).data.length := by
  rcases Nat.eq_zero_or_pos n with hn | hn
  · subst hn; decide
  · rw [repr_chars_of_pos n hn]
    have hne : Nat.digits 10 n ≠ [] := Nat.digits_ne_nil_iff_ne_zero.mpr (by omega)
    simpa using List.length_pos.mpr hne

/-- Candidate destination filename number `count` under the timestamp
policy: `f"{timestamp}{file_ext}"` for the first try and
`f"{timestamp}_{count}{file_ext}"` for the retries
(`01_image_processor.py` lines 107 and 111). -/
def timestamp_candidate (timestamp : Nat) (fileExt : String) (count : Nat) : String :=
  if count = 0 then Nat.repr timestamp ++ fileExt
  else Nat.repr timestamp ++ "_" ++ Nat.repr count ++ fileExt

theorem timestamp_candidate_inj (t : Nat) (ext : String) :
    Function.Injective (timestamp_candidate t ext) := by
  intro c₁ c₂ h
  unfold timestamp_candidate at h
  by_cases h₁ : c₁ = 0 <;> by_cases h₂ : c₂ = 0
  · omega
  · exfalso
    simp only [h₁, h₂, if_true, if_false] at h
    have hl := congrArg String.length h
    simp only [String.length_append] at hl
    have hu : ("_" : String).length = 1 := rfl
    have := repr_length_pos c₂
    have hr : (Nat.repr c₂).length = (Nat.repr c₂).data.length := rfl
    omega
  · exfalso
    simp only [h₁, h₂, if_true, if_false] at h
    have hl := congrArg String.length h
    simp only [String.length_append] at hl
    have hu : ("_" : String).length = 1 := rfl
    have := repr_length_pos c₁
    have hr : (Nat.repr c₁).length = (Nat.repr c₁).data.length := rfl
    omega
  · simp only [h₁, h₂, if_false] at h
    have hd := congrArg String.data h
    have hsplit : ∀ a b c : String, (a ++ b ++ c).data = (a.data ++ b.data) ++ c.data := by
      intro a b c; rfl
    have hd' : ((Nat.repr t ++ "_").data ++ (Nat.repr c₁).data) ++ ext.data =
        ((Nat.repr t ++ "_").data ++ (Nat.repr c₂).data) ++ ext.data := hd
    have := List.append_cancel_left (List.append_cancel_right hd')
    exact natRepr_injective (String.ext this)


/-- The `while os.path.exists(...)` collision loop
(`01_image_processor.py` lines 106-111), fuelled: one fuel unit per
membership test.  `find_free_name` supplies enough fuel for the loop to
reach a free name. -/
def find_free_aux (dir : List String) (t : Nat) (ext : String) :
    Nat → Nat → String
  | 0, count => timestamp_candidate t ext count
  | fuel + 1, count =>
      if timestamp_candidate t ext count ∈ dir then
        find_free_aux dir t ext fuel (count + 1)
      else timestamp_candidate t ext count

/-- The name chosen for one file under the timestamp policy, before the
prefix tag is applied: the first candidate not present in the destination
directory. -/
def find_free_name (dir : List String) (t : Nat) (ext : String) : String :=
  find_free_aux dir t ext (dir.length + 1) 0

theorem find_free_aux_spec (dir : List String) (t : Nat) (ext : String) :
    ∀ fuel count, find_free_aux dir t ext fuel count ∉ dir ∨
      ∀ i < fuel, timestamp_candidate t ext (count + i) ∈ dir := by
  intro fuel
  induction fuel with
  | zero =>
    intro count
    right
    intro i hi
    omega
  | succ fuel ih =>
    intro count
    by_cases hmem : timestamp_candidate t ext count ∈ dir
    · rcases ih (count + 1) with h | h
      · left
        simpa [find_free_aux, hmem] using h
      · right
        intro i hi
        cases i with
        | zero => simpa using hmem
        | succ j =>
          have := h j (by omega)
          have harith : count + 1 + j = count + (j + 1) := by omega
          rwa [harith] at this
    · left
      simp [find_free_aux, hmem]

theorem find_free_name_not_mem (dir : List String) (t : Nat) (ext : String) :
    find_free_name dir t ext ∉ dir := by
  rcases find_free_aux_spec dir t ext (dir.length + 1) 0 with h | h
  · exact h
  · exfalso
    have hsub : ((List.range (dir.length + 1)).map
        (timestamp_candidate t ext)) ⊆ dir := by
      intro x hx
      simp only [List.mem_map, List.mem_range] at hx
      obtain ⟨i, hi, rfl⟩ := hx
      simpa using h i hi
    have hnodup : ((List.range (dir.length + 1)).map
        (timestamp_candidate t ext)).Nodup :=
      List.Nodup.map (timestamp_candidate_inj t ext) (List.nodup_range _)
    have hle := (List.Nodup.subperm hnodup hsub).length_le
    simp only [List.length_map, List.length_range] at hle
    omega

/-- One sequential intake batch under the timestamp policy: each file is
given the first free un-prefixed candidate name, the prefix tag is then
prepended (lines 126-128), and the materialized file joins the
destination directory seen by the subsequent files. -/
def run_timestamp_batch (prefixTag : String) (dir : List String) :
    List (Nat × String) → List String
  | [] => []
  | (t, ext) :: rest =>
      let base := find_free_name dir t ext
      let newName := if prefixTag ≠ "" then prefixTag ++ base else base
      newName :: run_timestamp_batch prefixTag (newName :: dir) rest

theorem run_timestamp_batch_cons_empty (dir : List String) (t : Nat)
    (ext : String) (rest : List (Nat × String)) :
    run_timestamp_batch "" dir ((t, ext) :: rest) =
      find_free_name dir t ext ::
        run_timestamp_batch "" (find_free_name dir t ext :: dir) rest := rfl

theorem run_batch_no_prefixTag_spec (files : List (Nat × String)) :
    ∀ dir : List String, (run_timestamp_batch "" dir files).Nodup ∧
      ∀ n ∈ run_timestamp_batch "" dir files, n ∉ dir := by
  induction files with
  | nil =>
    intro dir
    refine ⟨List.nodup_nil, ?_⟩
    intro n hn
    rw [show run_timestamp_batch "" dir [] = [] from rfl] at hn
    simp at hn
  | cons f rest ih =>
    intro dir
    obtain ⟨t, ext⟩ := f
    have hbase := find_free_name_not_mem dir t ext
    have hrest := ih (find_free_name dir t ext :: dir)
    constructor
    · rw [run_timestamp_batch_cons_empty]
      refine List.Nodup.cons ?_ hrest.1
      intro hmem
      have := hrest.2 _ hmem
      simp at this
    · intro n hn
      rw [run_timestamp_batch_cons_empty] at hn
      simp only [List.mem_cons] at hn
      rcases hn with rfl | hn
      · simpa using hbase
      · have := hrest.2 n hn
        intro hmem
        exact this (by simp [hmem])

/-- Counterexample to C4 as stated: with the (default) prefix tag `O`,
two files processed in the same millisecond receive the identical
destination filename `O5.jpg`, because the collision check runs on the
un-prefixed candidate `5.jpg` while the stored file is the prefixed one.
The produced batch filenames are not unique. -/
theorem c4_counterexample_prefixTag_collision :
    ¬ (run_timestamp_batch "O" [] [(5, ".jpg"), (5, ".jpg")]).Nodup := by
  decide

/-- C4 (amended): under the timestamp policy with an empty prefix tag,
the collision loop always returns a candidate name free in the
destination directory, and every filename produced by a sequentially
processed batch is unique within the destination directory.  (With a
non-empty prefix tag the check runs on the un-prefixed candidate and
uniqueness can fail, see the counterexample.) -/
theorem c4_timestamp_batch_unique (dir : List String)
    (files : List (Nat × String)) :
    (∀ t ext, find_free_name dir t ext ∉ dir) ∧
    (run_timestamp_batch "" dir files).Nodup ∧
    (∀ n ∈ run_timestamp_batch "" dir files, n ∉ dir) := by
  refine ⟨fun t ext => find_free_name_not_mem dir t ext, ?_, ?_⟩
  · exact (run_batch_no_prefixTag_spec files dir).1
  · exact (run_batch_no_prefixTag_spec files dir).2

/-- Witness for C4 (amended) at a concrete two-file batch colliding with
a pre-existing `5.jpg`: the produced names are unique and avoid the
existing directory entry. -/
theorem c4_timestamp_batch_unique_witness :
    (run_timestamp_batch "" ["5.jpg"] [(5, ".jpg"), (5, ".jpg")]).Nodup ∧
    "5_1.jpg" ∉ ["5.jpg"] :=
  ⟨(c4_timestamp_batch_unique ["5.jpg"] [(5, ".jpg"), (5, ".jpg")]).2.1,
   (c4_timestamp_batch_unique ["5.jpg"] [(5, ".jpg"), (5, ".jpg")]).2.2
     "5_1.jpg" (by decide)⟩

/-! ### Quarantine handling (`01_image_processor.py` lines 115-122, 131-143, 187-216)

A failing file is handed to `handle_error_image`, which copies the
original into the `error` directory (adding a timestamp suffix on name
collision) and inserts a catalog row with `status='error'`.  The whole
body of `handle_error_image` sits in a `try` whose `except` only logs, so
when the quarantine copy itself fails (in particular when the source file
is unreadable) nothing is inserted.  A successful file is copied to the
destination and inserted with the `status` column omitted, which takes
the schema default `'success'` (`00_init_app.py` line 179).

The model runs the content-hash batch in `keep_original` (copy) mode:
each file carries its raw content (`none` when the file cannot be read)
and a flag telling whether the copy to the destination directory would
succeed.
-/

/-- One input file of an intake batch. -/
structure IntakeFile where
  stem : String
  ext : String
  content : Option (List Nat)
  destCopyOk : Bool
  deriving DecidableEq, Repr

/-- `os.path.basename` of the source file. -/
def IntakeFile.name (f : IntakeFile) : String := f.stem ++ f.ext

/-- The columns of an `images` row that intake writes. -/
structure CatalogRow where
  original_filename : String
  file_name : String
  file_path : String
  status : String
  error_message : Option String
  deriving DecidableEq, Repr

/-- The filesystem and catalog state threaded through a batch. -/
structure IntakeState where
  rows : List CatalogRow
  destDir : List String
  errorDir : List String
  deriving DecidableEq, Repr

/-- `handle_error_image` (`01_image_processor.py` lines 187-216): pick
the quarantine name (timestamp suffix on collision), copy the original
there, and insert the error row.  When the copy raises — which it does
whenever the source itself is unreadable — the surrounding `except`
swallows the exception and neither the copy nor the insert happens. -/
def handle_error_image (f : IntakeFile) (errTimestamp : Nat)
    (st : IntakeState) (errorMsg : String) : IntakeState :=
  let errorName :=
    if f.name ∈ st.errorDir then
      f.stem ++ "_" ++ Nat.repr errTimestamp ++ f.ext
    else f.name
  let row : CatalogRow :=
    { original_filename := f.name, file_name := f.name,
      file_path := "error/" ++ errorName, status := "error",
      error_message := some errorMsg }
  match f.content with
  | none => st
  | some _ =>
      { st with
        errorDir := errorName :: st.errorDir,
        rows := st.rows ++ [row] }

/-- Processing of one file of a content-hash batch in `keep_original`
mode (`01_image_processor.py` lines 112-143 and 166-172): hash the raw
bytes (unreadable source → `handle_error_image`, continue), build the
prefixed destination name, copy to the destination (failure →
`handle_error_image`, continue), and insert a success row whose omitted
`status` column defaults to `'success'`. -/
def process_hash_file (prefixTag : String) (errTimestamp : Nat)
    (st : IntakeState) (f : IntakeFile) : IntakeState :=
  match f.content with
  | none => handle_error_image f errTimestamp st "无法读取文件进行哈希计算"
  | some bytes =>
      let nf := md5Hex bytes ++ f.ext
      let nf := if prefixTag ≠ "" then prefixTag ++ nf else nf
      let row : CatalogRow :=
        { original_filename := f.name, file_name := nf,
          file_path := "dest/" ++ nf, status := "success",
          error_message := none }
      if f.destCopyOk then
        { st with destDir := nf :: st.destDir, rows := st.rows ++ [row] }
      else handle_error_image f errTimestamp st "复制文件失败"

/-- A whole content-hash intake batch, files processed strictly
sequentially; per-file failures never abort the loop. -/
def run_hash_batch (prefixTag : String) (errTimestamp : Nat)
    (st : IntakeState) : List IntakeFile → IntakeState
  | [] => st
  | f :: rest =>
      run_hash_batch prefixTag errTimestamp
        (process_hash_file prefixTag errTimestamp st f) rest

/-- Number of catalog rows carrying the given status. -/
def count_rows_with_status (rows : List CatalogRow) (s : String) : Nat :=
  (rows.filter (fun r => r.status == s)).length

/-- The empty initial state of an intake batch. -/
def emptyIntakeState : IntakeState := ⟨[], [], []⟩

set_option maxRecDepth 1000000 in
/-- C5, evaluated at the failing input: in a 3-file content-hash batch
whose second file is unreadable, the batch completes and inserts the two
success rows, but — contrary to the claim — no error row is inserted and
no quarantined copy is made for the unreadable file, because the
quarantine copy of an unreadable source itself raises and the `except` in
`handle_error_image` swallows it without touching the catalog.  When the
source is readable and only the copy to the destination fails, the
claimed behavior does occur: the file is quarantined (with a timestamp
suffix on a name collision) and an error row referencing the quarantined
copy is inserted. -/
theorem c5_unreadable_file_inserts_no_error_row :
    (count_rows_with_status (run_hash_batch "" 7 emptyIntakeState
        [⟨"a", ".jpg", some [0], true⟩, ⟨"b", ".jpg", none, true⟩,
         ⟨"c", ".jpg", some [1], true⟩]).rows "success" = 2 ∧
      count_rows_with_status (run_hash_batch "" 7 emptyIntakeState
        [⟨"a", ".jpg", some [0], true⟩, ⟨"b", ".jpg", none, true⟩,
         ⟨"c", ".jpg", some [1], true⟩]).rows "error" = 0 ∧
      (run_hash_batch "" 7 emptyIntakeState
        [⟨"a", ".jpg", some [0], true⟩, ⟨"b", ".jpg", none, true⟩,
         ⟨"c", ".jpg", some [1], true⟩]).errorDir = []) ∧
    ((run_hash_batch "" 7 emptyIntakeState
        [⟨"d", ".jpg", some [0], false⟩, ⟨"d", ".jpg", some [1], false⟩]).errorDir
        = ["d_7.jpg", "d.jpg"] ∧
      count_rows_with_status (run_hash_batch "" 7 emptyIntakeState
        [⟨"d", ".jpg", some [0], false⟩, ⟨"d", ".jpg", some [1], false⟩]).rows
        "error" = 2) := by
  decide

/-! ### EXIF extraction and normalization (`exif_utils/extractor.py`)

Raw tag values surfaced by PIL are modelled by an explicit value type;
an opened image is its decoded size, format, mode and optional raw tag
set; a failed `Image.open` is `none`.  Every per-field conversion is a
total function whose `none`/fallback branches model the exceptions the
`except` clauses catch.
-/

/-- A numeric component of a GPS coordinate triple. -/
inductive PyNum where
  | pInt (n : Int)
  | pRat (num den : Int)
  deriving DecidableEq, Repr

/-- One value of the decoded `GPSInfo` sub-dictionary. -/
inductive GpsEntry where
  | gTriple (components : List PyNum)
  | gStr (s : String)
  | gOther (s : String)
  deriving DecidableEq, Repr

/-- A raw EXIF tag value as surfaced by PIL. -/
inductive ExifVal where
  | vInt (n : Int)
  | vStr (s : String)
  | vRat (num den : Int)
  | vSize (w h : Int)
  | vGps (entries : List (String × GpsEntry))
  | vOther (s : String)
  deriving DecidableEq, Repr

/-- An exact rational as an explicit numerator/denominator pair.  All
constructed values keep the denominator positive; `Mathlib`'s `ℚ` is not
used because its normalizing arithmetic does not reduce inside the
kernel, which the concrete evaluations below require. -/
structure Frac where
  num : Int
  den : Int
  deriving DecidableEq, Repr

/-- Build a fraction, moving the sign to the numerator. -/
def Frac.mk' (n d : Int) : Frac := if d < 0 then ⟨-n, -d⟩ else ⟨n, d⟩

/-- Embed an integer. -/
def Frac.ofInt (n : Int) : Frac := ⟨n, 1⟩

/-- Exact addition (no reduction of the result). -/
def Frac.add (a b : Frac) : Frac := ⟨a.num * b.den + b.num * a.den, a.den * b.den⟩

/-- Exact division. -/
def Frac.div (a b : Frac) : Frac := Frac.mk' (a.num * b.den) (a.den * b.num)

/-- Negation. -/
def Frac.neg (a : Frac) : Frac := ⟨-a.num, a.den⟩

/-- Whether the value is negative. -/
def Frac.isNeg (a : Frac) : Bool := a.num * a.den < 0

/-- Whether the value is positive. -/
def Frac.isPos (a : Frac) : Bool := 0 < a.num * a.den

/-- Absolute value. -/
def Frac.abs (a : Frac) : Frac := ⟨|a.num|, |a.den|⟩

/-- Floor (denominator positive). -/
def Frac.floor (a : Frac) : Int := a.num.fdiv a.den

/-- Round to the nearest integer, ties to even (the rounding of Python
fixed-point formatting at exactly representable values); the argument
has a positive denominator. -/
def roundHalfEven (a : Frac) : Int :=
  let f := a.floor
  let rnum := a.num - f * a.den
  if 2 * rnum < a.den then f
  else if a.den < 2 * rnum then f + 1
  else if f % 2 = 0 then f else f + 1

/-- Left-pad with zeros to the given width. -/
def padZeros (k : Nat) (s : String) : String :=
  String.mk (List.replicate (k - s.length) '0') ++ s

/-- Python fixed-point formatting `f"{q:.kf}"` with `k` digits after the
decimal point. -/
def formatFixed (k : Nat) (a : Frac) : String :=
  let m := (roundHalfEven ⟨|a.num| * (10 ^ k : Nat), |a.den|⟩).toNat
  let sgn := if a.isNeg then "-" else ""
  sgn ++ Nat.repr (m / 10 ^ k) ++ "." ++ padZeros k (Nat.repr (m % 10 ^ k))

/-- Python `str(...)` on a raw value. `vOther` carries its own string
form; `vGps` is never stringified by the modelled code paths. -/
def pyStr : ExifVal → String
  | .vInt n => toString n
  | .vStr s => s
  | .vRat n d => toString n ++ "/" ++ toString d
  | .vSize w h => "(" ++ toString w ++ ", " ++ toString h ++ ")"
  | .vGps _ => "GPSInfo"
  | .vOther s => s

/-- Python truthiness of a raw value. -/
def pyTruthy : ExifVal → Bool
  | .vInt n => n != 0
  | .vStr s => s != ""
  | .vRat n _ => n != 0
  | .vSize _ _ => true
  | .vGps entries => !entries.isEmpty
  | .vOther _ => true

/-- Whether the value has `numerator`/`denominator` attributes (Python
ints and rationals do). -/
def hasNumDen : ExifVal → Bool
  | .vInt _ => true
  | .vRat _ _ => true
  | _ => false

/-- `numerator` attribute. -/
def evNum : ExifVal → Int
  | .vInt n => n
  | .vRat n _ => n
  | _ => 0

/-- `denominator` attribute. -/
def evDen : ExifVal → Int
  | .vInt _ => 1
  | .vRat _ d => d
  | _ => 1

/-- `numerator / denominator`; `none` models the `ZeroDivisionError`
caught by the surrounding `except`. -/
def ratDivQ (v : ExifVal) : Option Frac :=
  if evDen v = 0 then none
  else some (Frac.div (Frac.ofInt (evNum v)) (Frac.ofInt (evDen v)))

/-- Accumulate the value of a run of ASCII digits. -/
def digitsVal (cs : List Char) : Nat :=
  cs.foldl (fun a c => 10 * a + (c.toNat - 48)) 0

/-- Python `float(str)` for the plain decimal forms (sign, digits,
optional fraction); anything else is treated as a conversion failure. -/
def parseFloatChars (cs : List Char) : Option Frac :=
  let sgned : Int × List Char :=
    match cs with
    | '-' :: rest => (-1, rest)
    | '+' :: rest => (1, rest)
    | _ => (1, cs)
  let intPart := sgned.2.takeWhile Char.isDigit
  let rest := sgned.2.dropWhile Char.isDigit
  match rest with
  | [] =>
      if intPart.isEmpty then none
      else some ⟨sgned.1 * (digitsVal intPart : Nat), 1⟩
  | '.' :: rest2 =>
      let fracPart := rest2.takeWhile Char.isDigit
      if (rest2.dropWhile Char.isDigit).isEmpty &&
          !(intPart.isEmpty && fracPart.isEmpty) then
        some ⟨sgned.1 * ((digitsVal intPart : Nat) * (10 ^ fracPart.length : Nat) +
          (digitsVal fracPart : Nat)), (10 ^ fracPart.length : Nat)⟩
      else none
  | _ => none

/-- Python `float(...)` on a raw value; `none` models the exceptions the
per-field `except` clauses catch. -/
def pyFloat : ExifVal → Option Frac
  | .vInt n => some (Frac.ofInt n)
  | .vStr s => parseFloatChars s.data
  | .vRat n d =>
      if d = 0 then none else some (Frac.div (Frac.ofInt n) (Frac.ofInt d))
  | .vSize _ _ => none
  | .vGps _ => none
  | .vOther _ => none

/-- Focal length (`exif_utils/extractor.py` lines 169-178):
`f"{num/den:.1f}mm"` through the rational attributes, `f"{float(v):.1f}mm"`
otherwise, raw string form when the conversion raises. -/
def normalize_focal_length (v : ExifVal) : String :=
  if hasNumDen v then
    match ratDivQ v with
    | some q => formatFixed 1 q ++ "mm"
    | none => pyStr v
  else
    match pyFloat v with
    | some q => formatFixed 1 q ++ "mm"
    | none => pyStr v

/-- Shutter speed (`exif_utils/extractor.py` lines 180-192):
`1/{den}s` when the numerator is 1, `{num}/{den}s` otherwise,
`f"{float(v):.5f}s"` without rational attributes, raw string form when
the conversion raises. -/
def normalize_shutter_speed (v : ExifVal) : String :=
  if hasNumDen v then
    if evNum v = 1 then "1/" ++ toString (evDen v) ++ "s"
    else toString (evNum v) ++ "/" ++ toString (evDen v) ++ "s"
  else
    match pyFloat v with
    | some q => formatFixed 5 q ++ "s"
    | none => pyStr v

/-- Aperture (`exif_utils/extractor.py` lines 194-203): `f/{value:.1f}`. -/
def normalize_aperture (v : ExifVal) : String :=
  if hasNumDen v then
    match ratDivQ v with
    | some q => "f/" ++ formatFixed 1 q
    | none => pyStr v
  else
    match pyFloat v with
    | some q => "f/" ++ formatFixed 1 q
    | none => pyStr v

/-- `+{value:.1f}EV` for positive values, `{value:.1f}EV` otherwise. -/
def evSigned (q : Frac) : String :=
  if q.isPos then "+" ++ formatFixed 1 q ++ "EV" else formatFixed 1 q ++ "EV"

/-- Exposure compensation (`exif_utils/extractor.py` lines 211-228). -/
def normalize_exposure_compensation (v : ExifVal) : String :=
  if hasNumDen v then
    match ratDivQ v with
    | some q => evSigned q
    | none => pyStr v
  else
    match pyFloat v with
    | some q => evSigned q
    | none => pyStr v

/-- Python `str.isdigit()` over ASCII strings: non-empty, all digits. -/
def pyIsDigit (s : String) : Bool :=
  s != "" && s.data.all Char.isDigit

/-- `int(...)` of a digit string. -/
def pyDigitsToNat (s : String) : Nat := digitsVal s.data

/-- White balance (`exif_utils/extractor.py` lines 230-244): integer code
0 maps to `"自动"`, 1 maps to `"手动"`, anything else passes through as
its string form. -/
def normalize_white_balance : ExifVal → String
  | .vInt n =>
      if n = 0 then "自动" else if n = 1 then "手动" else toString n
  | .vStr s =>
      if pyIsDigit s then
        if pyDigitsToNat s = 0 then "自动"
        else if pyDigitsToNat s = 1 then "手动"
        else s
      else s
  | v => pyStr v

/-- One GPS coordinate component as an exact rational; `none` models a
division by a zero denominator (raising, caught by the `except`). -/
def pyNumQ : PyNum → Option Frac
  | .pInt n => some (Frac.ofInt n)
  | .pRat n d =>
      if d = 0 then none else some (Frac.div (Frac.ofInt n) (Frac.ofInt d))

/-- `coord[0] + coord[1]/60 + coord[2]/3600`; `none` models the
`IndexError`/`ZeroDivisionError` cases the `except` catches (missing or
non-numeric components). -/
def gpsTripleToQ (l : List PyNum) : Option Frac :=
  match l[0]?, l[1]?, l[2]? with
  | some a, some b, some c =>
      match pyNumQ a, pyNumQ b, pyNumQ c with
      | some qa, some qb, some qc =>
          some (Frac.add (Frac.add qa (Frac.div qb (Frac.ofInt 60)))
            (Frac.div qc (Frac.ofInt 3600)))
      | _, _, _ => none
  | _, _, _ => none

/-- Value of a `GPSInfo` entry used as a coordinate; a non-sequence entry
makes the conversion raise, which the `except` turns into a null field. -/
def gpsValue : GpsEntry → Option Frac
  | .gTriple l => gpsTripleToQ l
  | _ => none

/-- `ref == "S"`-style comparison on a `GPSInfo` entry. -/
def gpsRefEq (e : GpsEntry) (s : String) : Bool :=
  match e with
  | .gStr r => r == s
  | _ => false

/-- Latitude extraction (`exif_utils/extractor.py` lines 250-262): both
`GPSLatitude` and `GPSLatitudeRef` must be present; the degree triple is
converted to decimal degrees, negated for the southern hemisphere, and
formatted with 6 decimals; every failure leaves the field null. -/
def extract_gps_latitude (gps : List (String × GpsEntry)) : Option String :=
  match List.lookup "GPSLatitude" gps, List.lookup "GPSLatitudeRef" gps with
  | some lat, some latRef =>
      match gpsValue lat with
      | some q =>
          some (formatFixed 6 (if gpsRefEq latRef "S" then Frac.neg q else q))
      | none => none
  | _, _ => none

/-- Longitude extraction (`exif_utils/extractor.py` lines 264-276),
negating for the western hemisphere. -/
def extract_gps_longitude (gps : List (String × GpsEntry)) : Option String :=
  match List.lookup "GPSLongitude" gps, List.lookup "GPSLongitudeRef" gps with
  | some lon, some lonRef =>
      match gpsValue lon with
      | some q =>
          some (formatFixed 6 (if gpsRefEq lonRef "W" then Frac.neg q else q))
      | none => none
  | _, _ => none

theorem formatFixed_neg (k : Nat) (a : Frac) (ha : a.isPos = true) :
    formatFixed k (Frac.neg a) = "-" ++ formatFixed k a := by
  have h1 : (Frac.neg a).isNeg = true := by
    simp only [Frac.isPos, Frac.isNeg, Frac.neg, decide_eq_true_eq] at *
    rw [neg_mul]
    omega
  have h2 : a.isNeg = false := by
    simp only [Frac.isPos, Frac.isNeg, decide_eq_true_eq,
      decide_eq_false_iff_not, not_lt] at *
    omega
  unfold formatFixed
  rw [h1, h2]
  simp only [Frac.neg, abs_neg, if_true, if_false]
  rfl


/-- A Python `datetime.datetime` value. -/
structure PyDateTime where
  year : Nat
  month : Nat
  day : Nat
  hour : Nat
  minute : Nat
  second : Nat
  microsecond : Nat
  deriving DecidableEq, Repr

/-- Gregorian leap year. -/
def isLeapYear (y : Nat) : Bool :=
  (y % 4 = 0 && y % 100 ≠ 0) || y % 400 = 0

/-- Days in a month. -/
def daysInMonth (y m : Nat) : Nat :=
  if m = 2 then (if isLeapYear y then 29 else 28)
  else if m = 4 || m = 6 || m = 9 || m = 11 then 30
  else 31

/-- The `datetime` constructor: validates all fields, `none` models the
`ValueError` that `strptime` lets escape (caught by the caller's
`except ValueError`). -/
def mkPyDateTime (y mo d h mi s us : Nat) : Option PyDateTime :=
  if 1 ≤ y && y ≤ 9999 && 1 ≤ mo && mo ≤ 12 && 1 ≤ d && d ≤ daysInMonth y mo
      && h ≤ 23 && mi ≤ 59 && s ≤ 59 && us ≤ 999999 then
    some ⟨y, mo, d, h, mi, s, us⟩
  else none

/-- Numeric value of an ASCII digit. -/
def digitNat (c : Char) : Nat := c.toNat - 48

/-- `%Y` of CPython `_strptime`: exactly four digits. -/
def parseYear4 : List Char → Option (Nat × List Char)
  | a :: b :: c :: d :: rest =>
      if a.isDigit && b.isDigit && c.isDigit && d.isDigit then
        some (1000 * digitNat a + 100 * digitNat b + 10 * digitNat c +
          digitNat d, rest)
      else none
  | _ => none

/-- The two-digits-else-one-digit numeric fields of CPython `_strptime`
(`%m`, `%d`, `%H`, `%M`, `%S`): a two-digit match is accepted when its
value satisfies `valid2`, otherwise a single digit is accepted when its
value satisfies `valid1`. -/
def parse2or1 (valid2 valid1 : Nat → Bool) : List Char → Option (Nat × List Char)
  | a :: b :: rest =>
      if a.isDigit && b.isDigit && valid2 (10 * digitNat a + digitNat b) then
        some (10 * digitNat a + digitNat b, rest)
      else if a.isDigit && valid1 (digitNat a) then some (digitNat a, b :: rest)
      else none
  | [a] => if a.isDigit && valid1 (digitNat a) then some (digitNat a, []) else none
  | [] => none

/-- `%m`: `1[0-2]|0[1-9]|[1-9]`. -/
def parseMonth2 : List Char → Option (Nat × List Char) :=
  parse2or1 (fun v => 1 ≤ v && v ≤ 12) (fun v => 1 ≤ v)

/-- `%d`: `3[01]|[12]\d|0[1-9]|[1-9]`. -/
def parseDay2 : List Char → Option (Nat × List Char) :=
  parse2or1 (fun v => 1 ≤ v && v ≤ 31) (fun v => 1 ≤ v)

/-- `%H`: `2[0-3]|[0-1]\d|\d`. -/
def parseHour2 : List Char → Option (Nat × List Char) :=
  parse2or1 (fun v => v ≤ 23) (fun _ => true)

/-- `%M`: `[0-5]\d|\d`. -/
def parseMinute2 : List Char → Option (Nat × List Char) :=
  parse2or1 (fun v => v ≤ 59) (fun _ => true)

/-- `%S`: `6[0-1]|[0-5]\d|\d`. -/
def parseSecond2 : List Char → Option (Nat × List Char) :=
  parse2or1 (fun v => v ≤ 61) (fun _ => true)

/-- The whitespace class of `re`, ASCII part. -/
def isPyWs (c : Char) : Bool :=
  c = ' ' || c = '\t' || c = '\n' || c = '\r' || c = '\x0b' || c = '\x0c'

/-- A literal whitespace in a `strptime` format matches `\s+`. -/
def skipWs1 : List Char → Option (List Char)
  | c :: rest => if isPyWs c then some (rest.dropWhile isPyWs) else none
  | [] => none

/-- A literal character of the format. -/
def parseLit (c : Char) : List Char → Option (List Char)
  | x :: rest => if x = c then some rest else none
  | [] => none

/-- `%f`: one to six digits, right-padded to microseconds. -/
def parseFrac6 (cs : List Char) : Option (Nat × List Char) :=
  let ds := (cs.takeWhile Char.isDigit).take 6
  if ds.isEmpty then none
  else
    some ((ds.foldl (fun a c => 10 * a + digitNat c) 0) * 10 ^ (6 - ds.length),
      cs.drop ds.length)

/-- `datetime.strptime` against the format
`%Y<sep>%m<sep>%d %H:%M:%S` (with a trailing `.%f` when `withFrac`),
the six formats `02_exif_extractor`'s date parser tries.  The whole
input must be consumed. -/
def strptime_ymd (sep : Char) (withFrac : Bool) (s : String) :
    Option PyDateTime := do
  let (y, r) ← parseYear4 s.data
  let r ← parseLit sep r
  let (mo, r) ← parseMonth2 r
  let r ← parseLit sep r
  let (d, r) ← parseDay2 r
  let r ← skipWs1 r
  let (h, r) ← parseHour2 r
  let r ← parseLit ':' r
  let (mi, r) ← parseMinute2 r
  let r ← parseLit ':' r
  let (sec, r) ← parseSecond2 r
  if withFrac then do
    let r ← parseLit '.' r
    let (us, r) ← parseFrac6 r
    if r.isEmpty then mkPyDateTime y mo d h mi sec us else none
  else
    if r.isEmpty then mkPyDateTime y mo d h mi sec 0 else none

/-- The `date_formats` list of `exif_utils/extractor.py` lines 113-120,
as (separator, fractional-seconds) pairs, in source order. -/
def date_format_list : List (Char × Bool) :=
  [(':', false), (':', true), ('-', false), ('-', true), ('/', false),
   ('/', true)]

/-- `date_formats[:3]`, the slice tried by the special
millisecond path (line 130). -/
def ms_format_slice : List (Char × Bool) :=
  [(':', false), (':', true), ('-', false)]

/-- First format of the list that parses the string. -/
def firstParse (fmts : List (Char × Bool)) (s : String) : Option PyDateTime :=
  match fmts with
  | [] => none
  | (sep, fr) :: rest =>
      match strptime_ymd sep fr s with
      | some dt => some dt
      | none => firstParse rest s

/-- Separator class `[-:/]` of the millisecond regex. -/
def isSepChar (c : Char) : Bool := c = '-' || c = ':' || c = '/'

/-- Match the regex
`(\d{4}[-:/]\d{2}[-:/]\d{2}\s\d{2}:\d{2}:\d{2})(\.\d+)` at the head of
the character list, returning the two groups. -/
def msMatchAt (cs : List Char) : Option (List Char × List Char) :=
  match cs with
  | y1 :: y2 :: y3 :: y4 :: s1 :: m1 :: m2 :: s2 :: d1 :: d2 :: w ::
      h1 :: h2 :: c1 :: mi1 :: mi2 :: c2 :: se1 :: se2 :: rest =>
      if y1.isDigit && y2.isDigit && y3.isDigit && y4.isDigit &&
          isSepChar s1 && m1.isDigit && m2.isDigit && isSepChar s2 &&
          d1.isDigit && d2.isDigit && isPyWs w && h1.isDigit && h2.isDigit &&
          c1 = ':' && mi1.isDigit && mi2.isDigit && c2 = ':' &&
          se1.isDigit && se2.isDigit then
        match rest with
        | '.' :: t =>
            let frac := t.takeWhile Char.isDigit
            if frac.isEmpty then none
            else
              some ([y1, y2, y3, y4, s1, m1, m2, s2, d1, d2, w, h1, h2, c1,
                mi1, mi2, c2, se1, se2], '.' :: frac)
        | _ => none
      else none
  | _ => none

/-- `re.search` of the millisecond pattern: leftmost match. -/
def msSearchAux : List Char → Option (List Char × List Char)
  | [] => none
  | c :: rest =>
      match msMatchAt (c :: rest) with
      | some r => some r
      | none => msSearchAux rest

/-- `re.search(r'(\d{4}[-:/]\d{2}[-:/]\d{2}\s\d{2}:\d{2}:\d{2})(\.\d+)', s)`
(`exif_utils/extractor.py` line 123): base time string and fractional
group. -/
def msSearch (s : String) : Option (String × String) :=
  match msSearchAux s.data with
  | some (base, frac) => some (String.mk base, String.mk frac)
  | none => none

/-- `int(float(ms_str) * 1000000)` for `ms_str = ".<digits>"`, computed
exactly. -/
def msMicroseconds (ms : String) : Nat :=
  match ms.data with
  | '.' :: ds => (ds.foldl (fun a c => 10 * a + digitNat c) 0) * 1000000 /
      10 ^ ds.length
  | _ => 0

/-- The value stored in `core_exif['capture_time']`: a parsed timestamp
or the raw string when no layout matches. -/
inductive CaptureTime where
  | parsed (dt : PyDateTime)
  | raw (s : String)
  deriving DecidableEq, Repr

/-- The capture-time parsing block of `extract_core_exif`
(`exif_utils/extractor.py` lines 111-155): first the special
fractional-seconds path (split by the regex, parse the base with the
first three formats, re-attach the microseconds), then the six plain
formats, finally the raw string. -/
def parse_capture_time (date_str : String) : CaptureTime :=
  let viaMs : Option PyDateTime :=
    match msSearch date_str with
    | some (base, ms) =>
        (firstParse ms_format_slice base).map
          (fun dt => { dt with microsecond := msMicroseconds ms })
    | none => none
  let dt : Option PyDateTime :=
    match viaMs with
    | some d => some d
    | none => firstParse date_format_list date_str
  match dt with
  | some d => CaptureTime.parsed d
  | none => CaptureTime.raw date_str

/-- `datetime.strftime('%Y:%m:%d %H:%M:%S')`: the standard EXIF layout,
fields zero-padded. -/
def strftime_std (dt : PyDateTime) : String :=
  padZeros 4 (Nat.repr dt.year) ++ ":" ++ padZeros 2 (Nat.repr dt.month) ++
    ":" ++ padZeros 2 (Nat.repr dt.day) ++ " " ++
    padZeros 2 (Nat.repr dt.hour) ++ ":" ++ padZeros 2 (Nat.repr dt.minute) ++
    ":" ++ padZeros 2 (Nat.repr dt.second)


/-- A successfully opened image: decoded geometry, container format,
pixel mode, and the optional decoded EXIF tag set (`_getexif()`; `none`
when the attribute is missing or returns `None`). -/
structure ImageData where
  width : Int
  height : Int
  format : String
  mode : String
  exifTags : Option (List (String × ExifVal))
  deriving DecidableEq, Repr

/-- Python dict assignment on an association list: replace any previous
binding of the key, the new binding last. -/
def dictSet (d : List (String × ExifVal)) (k : String) (v : ExifVal) :
    List (String × ExifVal) :=
  d.filter (fun p => !(p.1 == k)) ++ [(k, v)]

/-- `get_exif_data` (`exif_utils/extractor.py` lines 36-64): `{}` when
opening the image raised; otherwise the decoded tag set (skipped
entirely when `_getexif()` is missing, `None` or empty — Python
truthiness) with `ImageSize`, `ImageFormat` and `ImageMode` added from
the decoded image. -/
def get_exif_data (img : Option ImageData) : List (String × ExifVal) :=
  match img with
  | none => []
  | some im =>
      let base :=
        match im.exifTags with
        | some tags => if tags.isEmpty then [] else tags
        | none => []
      dictSet (dictSet (dictSet base "ImageSize" (.vSize im.width im.height))
        "ImageFormat" (.vStr im.format)) "ImageMode" (.vStr im.mode)

/-- The canonical field set built by `extract_core_exif`
(`exif_utils/extractor.py` lines 79-93), all fields initialized to
null.  `camera_model`, `lens_model` and `iso` store the raw tag value;
the other textual fields store normalized strings. -/
structure CoreExif where
  capture_time : Option CaptureTime
  width : Option Int
  height : Option Int
  camera_model : Option ExifVal
  lens_model : Option ExifVal
  focal_length : Option String
  shutter_speed : Option String
  aperture : Option String
  iso : Option ExifVal
  exposure_compensation : Option String
  white_balance : Option String
  gps_latitude : Option String
  gps_longitude : Option String
  deriving DecidableEq, Repr

/-- `for field in [...]: if field in all_exif and all_exif[field]:` —
first listed key that is present with a truthy value. -/
def firstTruthy (raw : List (String × ExifVal)) : List String → Option ExifVal
  | [] => none
  | k :: rest =>
      match List.lookup k raw with
      | some v => if pyTruthy v then some v else firstTruthy raw rest
      | none => firstTruthy raw rest

/-- The field-by-field normalization of `extract_core_exif`
(`exif_utils/extractor.py` lines 95-278) over an already-extracted raw
tag set. -/
def extract_core_exif_raw (raw : List (String × ExifVal)) : CoreExif :=
  let sz : Option Int × Option Int :=
    match List.lookup "ImageSize" raw with
    | some (.vSize a b) => (some a, some b)
    -- unreachable for raw sets built by `get_exif_data`, which stores
    -- `ImageSize` only as the decoded size pair
    | some _ => (none, none)
    | none => (none, none)
  let gps : Option String × Option String :=
    match List.lookup "GPSInfo" raw with
    | some (.vGps entries) =>
        (extract_gps_latitude entries, extract_gps_longitude entries)
    -- unreachable for raw sets built by `get_exif_data`, which stores
    -- `GPSInfo` only as the decoded sub-dictionary
    | some _ => (none, none)
    | none => (none, none)
  { capture_time :=
      match firstTruthy raw ["DateTimeOriginal", "DateTimeDigitized",
          "DateTime"] with
      | some v => some (parse_capture_time (pyStr v))
      | none => none
    width := sz.1
    height := sz.2
    camera_model := firstTruthy raw ["Model", "CameraModel", "Camera"]
    lens_model := firstTruthy raw ["LensModel", "Lens", "LensInfo"]
    focal_length := (List.lookup "FocalLength" raw).map normalize_focal_length
    shutter_speed := (List.lookup "ExposureTime" raw).map normalize_shutter_speed
    aperture := (List.lookup "FNumber" raw).map normalize_aperture
    iso := firstTruthy raw ["ISOSpeedRatings", "ISO", "PhotographicSensitivity"]
    exposure_compensation :=
      (List.lookup "ExposureBiasValue" raw).map normalize_exposure_compensation
    white_balance := (List.lookup "WhiteBalance" raw).map normalize_white_balance
    gps_latitude := gps.1
    gps_longitude := gps.2 }

/-- `extract_core_exif` (`exif_utils/extractor.py` lines 66-278): runs
`get_exif_data` on the opened image (or the failure) and normalizes the
result into the canonical field set. -/
def extract_core_exif (img : Option ImageData) : CoreExif :=
  extract_core_exif_raw (get_exif_data img)

/-- The canonical key in its textual form, paired with whether the field
is populated — the shape of the dictionary `extract_core_exif` returns. -/
def core_exif_keys (e : CoreExif) : List (String × Bool) :=
  [("capture_time", e.capture_time.isSome), ("width", e.width.isSome),
   ("height", e.height.isSome), ("camera_model", e.camera_model.isSome),
   ("lens_model", e.lens_model.isSome),
   ("focal_length", e.focal_length.isSome),
   ("shutter_speed", e.shutter_speed.isSome),
   ("aperture", e.aperture.isSome), ("iso", e.iso.isSome),
   ("exposure_compensation", e.exposure_compensation.isSome),
   ("white_balance", e.white_balance.isSome),
   ("gps_latitude", e.gps_latitude.isSome),
   ("gps_longitude", e.gps_longitude.isSome)]

/-- The 13 canonical keys of the `core_exif` dictionary
(`exif_utils/extractor.py` lines 79-93), in source order. -/
def canonical_keys : List String :=
  ["capture_time", "width", "height", "camera_model", "lens_model",
   "focal_length", "shutter_speed", "aperture", "iso",
   "exposure_compensation", "white_balance", "gps_latitude",
   "gps_longitude"]

/-- The SQLite text form of a stored capture time (the default
`datetime` adapter renders ISO `YYYY-MM-DD HH:MM:SS[.ffffff]`; an
unparsed raw string is stored as-is). -/
def captureTimeDb (ct : CaptureTime) : String :=
  match ct with
  | .parsed dt =>
      padZeros 4 (Nat.repr dt.year) ++ "-" ++ padZeros 2 (Nat.repr dt.month) ++
        "-" ++ padZeros 2 (Nat.repr dt.day) ++ " " ++
        padZeros 2 (Nat.repr dt.hour) ++ ":" ++
        padZeros 2 (Nat.repr dt.minute) ++ ":" ++
        padZeros 2 (Nat.repr dt.second) ++
        (if dt.microsecond = 0 then ""
         else "." ++ padZeros 6 (Nat.repr dt.microsecond))
  | .raw s => s

/-- `update_image_exif_in_db` (`exif_utils/extractor.py` lines 280-331):
only non-null extracted fields enter the `SET` clause; null fields and
every other column — `status` in particular — are left untouched. -/
def apply_exif_update (r : ImageRecord) (e : CoreExif) : ImageRecord :=
  { r with
    capture_time :=
      match e.capture_time with
      | some ct => some (captureTimeDb ct)
      | none => r.capture_time
    width := match e.width with | some w => some w | none => r.width
    height := match e.height with | some h => some h | none => r.height
    camera_model :=
      match e.camera_model with
      | some v => some (pyStr v)
      | none => r.camera_model
    lens_model :=
      match e.lens_model with
      | some v => some (pyStr v)
      | none => r.lens_model
    focal_length :=
      match e.focal_length with
      | some s => some s
      | none => r.focal_length
    shutter_speed :=
      match e.shutter_speed with
      | some s => some s
      | none => r.shutter_speed
    aperture :=
      match e.aperture with
      | some s => some s
      | none => r.aperture
    iso := match e.iso with | some v => some (pyStr v) | none => r.iso
    exposure_compensation :=
      match e.exposure_compensation with
      | some s => some s
      | none => r.exposure_compensation
    white_balance :=
      match e.white_balance with
      | some s => some s
      | none => r.white_balance
    gps_latitude :=
      match e.gps_latitude with
      | some s => some s
      | none => r.gps_latitude
    gps_longitude :=
      match e.gps_longitude with
      | some s => some s
      | none => r.gps_longitude }

/-- C6: the GPS triple `(40, 26, 46)` with reference `N` normalizes to
`"40.446111"` and with reference `S` to `"-40.446111"` (degrees plus
minutes over 60 plus seconds over 3600, negated for the southern
hemisphere, 6 decimal places); a missing coordinate or reference leaves
the field null; and for every positive value the southern/western
rendering is the northern/eastern one with a leading minus sign. -/
theorem c6_gps_normalization :
    (extract_gps_latitude
        [("GPSLatitude", .gTriple [.pInt 40, .pInt 26, .pInt 46]),
         ("GPSLatitudeRef", .gStr "N")] = some "40.446111") ∧
    (extract_gps_latitude
        [("GPSLatitude", .gTriple [.pInt 40, .pInt 26, .pInt 46]),
         ("GPSLatitudeRef", .gStr "S")] = some "-40.446111") ∧
    (∀ gps, List.lookup "GPSLatitude" gps = none ∨
        List.lookup "GPSLatitudeRef" gps = none →
      extract_gps_latitude gps = none) ∧
    (∀ gps, List.lookup "GPSLongitude" gps = none ∨
        List.lookup "GPSLongitudeRef" gps = none →
      extract_gps_longitude gps = none) ∧
    (∀ (k : Nat) (a : Frac), a.isPos = true →
      formatFixed k (Frac.neg a) = "-" ++ formatFixed k a) := by
  refine ⟨by decide, by decide, ?_, ?_, formatFixed_neg⟩
  · intro gps h
    unfold extract_gps_latitude
    rcases h with h | h
    · rw [h]
    · rw [h]
      cases List.lookup "GPSLatitude" gps <;> rfl
  · intro gps h
    unfold extract_gps_longitude
    rcases h with h | h
    · rw [h]
    · rw [h]
      cases List.lookup "GPSLongitude" gps <;> rfl

/-- Witness for C6 at concrete inputs: an empty `GPSInfo` dictionary
leaves the latitude null, and negating the value `1` prepends a minus
sign to its 6-decimal rendering. -/
theorem c6_gps_normalization_witness :
    extract_gps_latitude [] = none ∧
    formatFixed 6 (Frac.neg ⟨1, 1⟩) = "-" ++ formatFixed 6 ⟨1, 1⟩ :=
  ⟨c6_gps_normalization.2.2.1 [] (Or.inl rfl),
   c6_gps_normalization.2.2.2.2 6 ⟨1, 1⟩ (by decide)⟩

/-- Counterexample to C7 as stated: the integer white-balance codes are
not mapped to `"auto"`/`"manual"` but to the localized strings
`"自动"`/`"手动"`. -/
theorem c7_counterexample_localized_strings :
    normalize_white_balance (ExifVal.vInt 0) ≠ "auto" ∧
    normalize_white_balance (ExifVal.vInt 1) ≠ "manual" ∧
    normalize_white_balance (ExifVal.vInt 0) = "自动" := by
  refine ⟨by decide, by decide, by decide⟩

/-- C7 (amended): white-balance normalization maps integer code 0 to
`"自动"` (the localized label for auto) and 1 to `"手动"` (manual);
every other value — other integers, non-digit strings, digit strings
with other values, and non-numeric values — passes through as its string
form. -/
theorem c7_white_balance_mapping :
    (normalize_white_balance (ExifVal.vInt 0) = "自动") ∧
    (normalize_white_balance (ExifVal.vInt 1) = "手动") ∧
    (∀ n : Int, n ≠ 0 → n ≠ 1 →
      normalize_white_balance (.vInt n) = toString n) ∧
    (∀ s : String, pyIsDigit s = false →
      normalize_white_balance (.vStr s) = s) ∧
    (∀ s : String, pyIsDigit s = true → pyDigitsToNat s ≠ 0 →
      pyDigitsToNat s ≠ 1 → normalize_white_balance (.vStr s) = s) ∧
    (∀ s : String, normalize_white_balance (.vOther s) = s) := by
  refine ⟨by decide, by decide, ?_, ?_, ?_, fun s => rfl⟩
  · intro n h0 h1
    simp [normalize_white_balance, h0, h1]
  · intro s hs
    simp [normalize_white_balance, hs]
  · intro s hs h0 h1
    simp [normalize_white_balance, hs, h0, h1]

/-- Witness for C7 (amended) at concrete inputs: integer code 5 and the
non-digit string `cloudy` pass through unchanged. -/
theorem c7_white_balance_mapping_witness :
    normalize_white_balance (ExifVal.vInt 5) = "5" ∧
    normalize_white_balance (ExifVal.vStr "cloudy") = "cloudy" := by
  have h := c7_white_balance_mapping
  exact ⟨h.2.2.1 5 (by decide) (by decide), h.2.2.2.1 "cloudy" (by decide)⟩

/-- Counterexample to C8 as stated: a decodable image without any
embedded metadata does not yield an empty raw set — the decoded
geometry is always added — and `width`/`height` do not remain null. -/
theorem c8_counterexample_dimensions_populated :
    (extract_core_exif (some ⟨4000, 3000, "JPEG", "RGB", none⟩)).width =
      some 4000 ∧
    get_exif_data (some ⟨4000, 3000, "JPEG", "RGB", none⟩) ≠ [] := by
  refine ⟨by decide, by decide⟩

/-- C8 (amended): for a decodable image whose embedded metadata is
absent (`_getexif()` missing or empty), extraction is a non-error:
`width`/`height` are set from the decoded geometry, all other canonical
fields remain null, writing the result back touches neither `status`
(which stays `success`) nor the null fields, and the record remains
EXIF-incomplete. -/
theorem c8_no_metadata_keeps_success_incomplete (w h : Int)
    (fmt mode : String) (tags : Option (List (String × ExifVal)))
    (htags : tags = none ∨ tags = some []) (r : ImageRecord)
    (hst : r.status = "success") (hct : r.capture_time = none) :
    (extract_core_exif (some ⟨w, h, fmt, mode, tags⟩)).width = some w ∧
    (extract_core_exif (some ⟨w, h, fmt, mode, tags⟩)).height = some h ∧
    (extract_core_exif (some ⟨w, h, fmt, mode, tags⟩)).capture_time = none ∧
    (extract_core_exif (some ⟨w, h, fmt, mode, tags⟩)).camera_model = none ∧
    (extract_core_exif (some ⟨w, h, fmt, mode, tags⟩)).lens_model = none ∧
    (extract_core_exif (some ⟨w, h, fmt, mode, tags⟩)).focal_length = none ∧
    (extract_core_exif (some ⟨w, h, fmt, mode, tags⟩)).shutter_speed = none ∧
    (extract_core_exif (some ⟨w, h, fmt, mode, tags⟩)).aperture = none ∧
    (extract_core_exif (some ⟨w, h, fmt, mode, tags⟩)).iso = none ∧
    (extract_core_exif (some ⟨w, h, fmt, mode, tags⟩)).exposure_compensation
      = none ∧
    (extract_core_exif (some ⟨w, h, fmt, mode, tags⟩)).white_balance = none ∧
    (extract_core_exif (some ⟨w, h, fmt, mode, tags⟩)).gps_latitude = none ∧
    (extract_core_exif (some ⟨w, h, fmt, mode, tags⟩)).gps_longitude = none ∧
    (apply_exif_update r
        (extract_core_exif (some ⟨w, h, fmt, mode, tags⟩))).status =
      "success" ∧
    is_exif_complete (apply_exif_update r
        (extract_core_exif (some ⟨w, h, fmt, mode, tags⟩))) = false := by
  rcases htags with rfl | rfl
  · refine ⟨rfl, rfl, rfl, rfl, rfl, rfl, rfl, rfl, rfl, rfl, rfl, rfl, rfl,
      hst, ?_⟩
    have hcap : (extract_core_exif
        (some ⟨w, h, fmt, mode, none⟩)).capture_time = none := rfl
    simp [is_exif_complete, apply_exif_update, hcap, hct]
  · refine ⟨rfl, rfl, rfl, rfl, rfl, rfl, rfl, rfl, rfl, rfl, rfl, rfl, rfl,
      hst, ?_⟩
    have hcap : (extract_core_exif
        (some ⟨w, h, fmt, mode, some []⟩)).capture_time = none := rfl
    simp [is_exif_complete, apply_exif_update, hcap, hct]

/-- A freshly ingested success record with every EXIF column null. -/
def freshSuccessRecord : ImageRecord :=
  { status := "success", capture_time := none, camera_model := none,
    width := none, height := none, focal_length := none,
    shutter_speed := none, aperture := none, iso := none,
    exposure_compensation := none, white_balance := none,
    lens_model := none, gps_latitude := none, gps_longitude := none,
    remark := none, error_message := none }

/-- Witness for C8 (amended) at a concrete image and a fresh success
record. -/
theorem c8_no_metadata_witness :
    (extract_core_exif (some ⟨4000, 3000, "JPEG", "RGB", none⟩)).camera_model
      = none ∧
    is_exif_complete (apply_exif_update freshSuccessRecord
      (extract_core_exif (some ⟨4000, 3000, "JPEG", "RGB", none⟩))) = false := by
  have hgen := c8_no_metadata_keeps_success_incomplete 4000 3000 "JPEG" "RGB"
    none (Or.inl rfl) freshSuccessRecord rfl rfl
  exact ⟨hgen.2.2.2.1, hgen.2.2.2.2.2.2.2.2.2.2.2.2.2.2⟩

/-- C9: the standard EXIF timestamp string `"2023:06:01 12:30:00"`
parses to the calendar timestamp 2023-06-01 12:30:00 (first layout of
the parser) and re-formatting that timestamp in the
`%Y:%m:%d %H:%M:%S` layout reproduces the original string exactly. -/
theorem c9_capture_time_roundtrip :
    parse_capture_time "2023:06:01 12:30:00" =
      CaptureTime.parsed ⟨2023, 6, 1, 12, 30, 0, 0⟩ ∧
    strftime_std ⟨2023, 6, 1, 12, 30, 0, 0⟩ = "2023:06:01 12:30:00" := by
  refine ⟨by decide, by decide⟩

/-- C10: raw extraction is total — a failed open yields the empty raw
dictionary and an all-null canonical set; for every input the canonical
result carries exactly the 13 canonical keys in source order; and each
per-field normalizer is applied totally (its internal fallbacks catch
every conversion failure), so whenever the raw key is present the
corresponding canonical field is populated with the normalized value. -/
theorem c10_extraction_total_shape (img : Option ImageData) :
    (get_exif_data none = []) ∧
    ((core_exif_keys (extract_core_exif img)).map Prod.fst =
      canonical_keys) ∧
    (extract_core_exif none = ⟨none, none, none, none, none, none, none,
      none, none, none, none, none, none⟩) ∧
    (∀ v, List.lookup "FocalLength" (get_exif_data img) = some v →
      (extract_core_exif img).focal_length =
        some (normalize_focal_length v)) ∧
    (∀ v, List.lookup "ExposureTime" (get_exif_data img) = some v →
      (extract_core_exif img).shutter_speed =
        some (normalize_shutter_speed v)) ∧
    (∀ v, List.lookup "FNumber" (get_exif_data img) = some v →
      (extract_core_exif img).aperture = some (normalize_aperture v)) ∧
    (∀ v, List.lookup "ExposureBiasValue" (get_exif_data img) = some v →
      (extract_core_exif img).exposure_compensation =
        some (normalize_exposure_compensation v)) ∧
    (∀ v, List.lookup "WhiteBalance" (get_exif_data img) = some v →
      (extract_core_exif img).white_balance =
        some (normalize_white_balance v)) ∧
    (∀ v, List.lookup "DateTimeOriginal" (get_exif_data img) = some v →
      pyTruthy v = true →
      (extract_core_exif img).capture_time =
        some (parse_capture_time (pyStr v))) := by
  refine ⟨rfl, rfl, rfl, ?_, ?_, ?_, ?_, ?_, ?_⟩
  · intro v hv
    show (List.lookup "FocalLength" (get_exif_data img)).map
      normalize_focal_length = _
    rw [hv]
    rfl
  · intro v hv
    show (List.lookup "ExposureTime" (get_exif_data img)).map
      normalize_shutter_speed = _
    rw [hv]
    rfl
  · intro v hv
    show (List.lookup "FNumber" (get_exif_data img)).map
      normalize_aperture = _
    rw [hv]
    rfl
  · intro v hv
    show (List.lookup "ExposureBiasValue" (get_exif_data img)).map
      normalize_exposure_compensation = _
    rw [hv]
    rfl
  · intro v hv
    show (List.lookup "WhiteBalance" (get_exif_data img)).map
      normalize_white_balance = _
    rw [hv]
    rfl
  · intro v hv htr
    have h1 : firstTruthy (get_exif_data img)
        ["DateTimeOriginal", "DateTimeDigitized", "DateTime"] = some v := by
      simp only [firstTruthy, hv, htr, if_true]
    show (match firstTruthy (get_exif_data img)
        ["DateTimeOriginal", "DateTimeDigitized", "DateTime"] with
      | some v => some (parse_capture_time (pyStr v))
      | none => none) = _
    rw [h1]

/-- The concrete image used to instantiate C10. -/
def c10SampleImage : Option ImageData :=
  some ⟨100, 50, "JPEG", "RGB",
    some [("FocalLength", ExifVal.vRat 50 1),
          ("DateTimeOriginal", ExifVal.vStr "2023:06:01 12:30:00")]⟩

/-- Witness for C10 at a concrete image carrying `FocalLength` and
`DateTimeOriginal` tags. -/
theorem c10_extraction_total_shape_witness :
    (extract_core_exif c10SampleImage).focal_length =
      some (normalize_focal_length (ExifVal.vRat 50 1)) ∧
    (extract_core_exif c10SampleImage).capture_time =
      some (parse_capture_time (pyStr
        (ExifVal.vStr "2023:06:01 12:30:00"))) := by
  have h := c10_extraction_total_shape c10SampleImage
  exact ⟨h.2.2.2.1 _ (by decide), h.2.2.2.2.2.2.2.2 _ (by decide) (by decide)⟩

end Shunying
